import Mathlib

/-!
Shallow embedding of `examples/classification/classification_adult.ipynb`
from the cyclic-boosting repository, together with proofs about the
notebook's authored logic: the column split, the feature-properties
dictionary, target binarization, the column-coverage assertion,
`prepare_data`, the mean-absolute-deviation computation, and a data-flow
model of the notebook's cell sequence and its external library calls.
-/

set_option autoImplicit false

namespace ClassificationAdult

/-- The hard-coded list of categorical column names
(`cols_categorical` in the notebook). -/
def cols_categorical : List String :=
  ["workclass", "education", "marital-status", "occupation",
   "relationship", "race", "sex", "native-country"]

/-- `cols_noncat = [n for n in df.columns if n not in cols_categorical]`,
computed from the dataframe's feature columns (before the target column is
added).  The feature-column list of the fetched dataset is kept abstract. -/
def cols_noncat (featureNames : List String) : List String :=
  featureNames.filter (fun n => decide (n ∉ cols_categorical))

/-- `features = cols_categorical + cols_noncat`. -/
def features (featureNames : List String) : List String :=
  cols_categorical ++ cols_noncat featureNames

namespace flags

/-- Modelled from the spec: the encoding-flag constant `flags.IS_CONTINUOUS`
of the cyclic-boosting library, whose source is not under `src/`; the spec
describes the feature-properties mapping as column name → encoding flags.
The concrete numeral is a model choice (distinct bits, combined with
bitwise or); no claim depends on the numeric values. -/
def IS_CONTINUOUS : Nat := 1

/-- Modelled from the spec: the encoding-flag constant `flags.IS_UNORDERED`
of the cyclic-boosting library (see `IS_CONTINUOUS`). -/
def IS_UNORDERED : Nat := 4

/-- Modelled from the spec: the encoding-flag constant `flags.HAS_MISSING`
of the cyclic-boosting library (see `IS_CONTINUOUS`). -/
def HAS_MISSING : Nat := 8

/-- Modelled from the spec: the encoding-flag constant
`flags.MISSING_NOT_LEARNED` of the cyclic-boosting library
(see `IS_CONTINUOUS`). -/
def MISSING_NOT_LEARNED : Nat := 16

end flags

/-- Lookup in an association list built by Python-dict insertion order:
the LAST binding of a key wins, as in `{**a, **b}` where `b` overrides. -/
def lookupLast {β : Type} : List (String × β) → String → Option β
  | [], _ => none
  | p :: ps, k =>
    match lookupLast ps k with
    | some v => some v
    | none => if p.1 = k then some p.2 else none

/-- The notebook's `feature_properties` dictionary, as its insertion-ordered
binding list:
`{**{col: IS_UNORDERED|HAS_MISSING|MISSING_NOT_LEARNED for col in cols_categorical},
  **{col: IS_CONTINUOUS|HAS_MISSING|MISSING_NOT_LEARNED for col in cols_noncat}}`. -/
def feature_properties (featureNames : List String) : List (String × Nat) :=
  (cols_categorical.map
    (fun col => (col, flags.IS_UNORDERED ||| flags.HAS_MISSING ||| flags.MISSING_NOT_LEARNED)))
  ++ ((cols_noncat featureNames).map
    (fun col => (col, flags.IS_CONTINUOUS ||| flags.HAS_MISSING ||| flags.MISSING_NOT_LEARNED)))

/-- A cell value of the tabular dataset: a string (raw categorical data),
an integer (numeric data and ordinal codes), or a missing value. -/
inductive Val where
  | str : String → Val
  | num : Int → Val
  | nan : Val
  deriving DecidableEq, Repr

/-- A dataframe: an ordered list of named columns, each a list of cell
values (top row first). -/
abbrev DF := List (String × List Val)

/-- `df[c]`: the values of the column named `c` (column names are unique in
the notebook's dataframe, so first match suffices). -/
def colGet : DF → String → Option (List Val)
  | [], _ => none
  | p :: ps, c => if p.1 = c then some p.2 else colGet ps c

/-- `df[c] = vals`: pandas column assignment replaces an existing column in
place and appends a new column at the end otherwise. -/
def setCol (df : DF) (c : String) (vals : List Val) : DF :=
  if (colGet df c).isSome then
    df.map (fun p => if p.1 = c then (c, vals) else p)
  else df ++ [(c, vals)]

/-- Strict comparison of cell values, used to sort a column's categories
(sklearn sorts the unique values; the cross-constructor ordering is an
arbitrary total extension, irrelevant to every claim). -/
def vlt : Val → Val → Bool
  | .num x, .num y => decide (x < y)
  | .num _, .str _ => true
  | .num _, .nan => true
  | .str x, .str y => decide (x < y)
  | .str _, .nan => true
  | .str _, .num _ => false
  | .nan, _ => false

/-- Insertion into a `vlt`-sorted list. -/
def insertSorted (v : Val) : List Val → List Val
  | [] => [v]
  | w :: ws => if vlt v w then v :: w :: ws else w :: insertSorted v ws

/-- Insertion sort by `vlt`. -/
def sortVals (l : List Val) : List Val := l.foldr insertSorted []

/-- The fitted categories of one column: its distinct values, sorted. -/
def categoriesOf (vals : List Val) : List Val := sortVals vals.dedup

/-- Index of a value in a category list. -/
def idxOfVal (v : Val) : List Val → Nat
  | [] => 0
  | w :: ws => if w = v then 0 else idxOfVal v ws + 1

/-- Model of sklearn `OrdinalEncoder().fit_transform` on a single column
(the encoder treats each feature independently): every value is replaced by
the index of its category in the sorted list of the column's distinct
values. -/
def ordinalEncodeCol (vals : List Val) : List Val :=
  vals.map (fun v => Val.num (Int.ofNat (idxOfVal v (categoriesOf vals))))

/-- `df[cols_categorical] = enc.fit_transform(df[cols_categorical])`:
every categorical column of the dataframe is replaced, in place, by its
ordinal encoding; all other columns are untouched. -/
def encodeCategoricals (df : DF) : DF :=
  df.map (fun p => if p.1 ∈ cols_categorical then (p.1, ordinalEncodeCol p.2) else p)

/-- `df["target"] = data.target.eq(">50K").mul(1)`: the binary
income-threshold label, 1 where the raw target value equals `">50K"` and 0
otherwise.  The `* 1` mirrors the notebook's `.mul(1)`. -/
def binarizeTarget (raw : List String) : List Val :=
  raw.map (fun v => Val.num ((if v = ">50K" then 1 else 0) * 1))

/-- The cell `df["target"] = data.target.eq(">50K").mul(1)`, with `raw` the
raw target column fetched from OpenML. -/
def addTargetColumn (df : DF) (raw : List String) : DF :=
  setCol df "target" (binarizeTarget raw)

/-- The notebook's `prepare_data`.  Python mutates the caller's dataframe
through `df[cols_categorical] = enc.fit_transform(...)`; the mutation is
modelled by returning the updated dataframe as the third component, so the
result is `(X, y, df-after-the-call)`:

    def prepare_data(df):
        enc = OrdinalEncoder(handle_unknown="use_encoded_value", unknown_value=np.nan)
        df[cols_categorical] = enc.fit_transform(df[cols_categorical])
        y = np.asarray(df["target"])
        X = df.drop(columns="target")
        return X, y
-/
def prepare_data (df : DF) : DF × List Val × DF :=
  let df2 := encodeCategoricals df
  let y := (colGet df2 "target").getD []
  let X := df2.filter (fun p => decide (p.1 ≠ "target"))
  (X, y, df2)

/-- The dataframe's columns when the assertion cell runs: the fetched
feature columns plus the `"target"` column appended by the notebook. -/
def dfColsWithTarget (featureNames : List String) : List String :=
  featureNames ++ ["target"]

/-- The set difference
`set(cols_noncat + cols_categorical) - set(df.columns)`: the listed
columns absent from the dataframe. -/
def missingCols (featureNames : List String) : List String :=
  (cols_noncat featureNames ++ cols_categorical).filter
    (fun c => decide (c ∉ dfColsWithTarget featureNames))

/-- The cell
`assert set(cols_noncat + cols_categorical) - set(df.columns) == set(), "Columns not in data set"`:
`ok` when the difference is empty, otherwise the authored
`AssertionError` with the authored message. -/
def columnsAssert (featureNames : List String) : Except String Unit :=
  if missingCols featureNames = [] then Except.ok ()
  else Except.error "Columns not in data set"

/-- Tags whether a surfaced failure originates in code authored in this
file or in an external library. -/
inductive ErrSource where
  | authored
  | library
  deriving DecidableEq, Repr

/-- The column-coverage assertion with its failure tagged by origin: the
`AssertionError` is raised by this file's own `assert` statement, not by a
library. -/
def columnsAssertTagged (featureNames : List String) :
    Except (ErrSource × String) Unit :=
  match columnsAssert featureNames with
  | Except.ok _ => Except.ok ()
  | Except.error m => Except.error (ErrSource.authored, m)

/-- The optional `import jupyter_black` WITHOUT the authored `try/except`:
a missing package surfaces as a library-raised `ImportError`. -/
def importJupyterBlackRaw (importFails : Bool) :
    Except (ErrSource × String) Unit :=
  if importFails then Except.error (ErrSource.library, "ImportError")
  else Except.ok ()

/-- The notebook's first code cell,
`try: import jupyter_black; jupyter_black.load() except ImportError: ...`:
the authored handler swallows the `ImportError`, so the cell succeeds
either way. -/
def importJupyterBlackCell (importFails : Bool) :
    Except (ErrSource × String) Unit :=
  match importJupyterBlackRaw importFails with
  | Except.ok _ => Except.ok ()
  | Except.error _ => Except.ok ()

/-- The external libraries the notebook calls into. -/
inductive Lib where
  | cyclicBoosting
  | sklearn
  | pandas
  | numpy
  | jupyterBlack
  deriving DecidableEq, Repr

/-- One call into an external library's public API. -/
structure ExtCall where
  lib : Lib
  fn : String
  deriving DecidableEq, Repr

/-- A value produced or consumed by a notebook statement. -/
inductive Res where
  | rawData
  | dataFrame
  | colSplit
  | targetCol
  | checkedCols
  | encoder
  | encodedCols
  | trainX
  | trainY
  | featList
  | featProps
  | observerList
  | model
  | fittedModel
  | probPredictions
  | madScore
  | inSampleScore
  | analysisPlots
  | predColumn
  | histogram
  deriving DecidableEq, Repr

/-- One executed statement of the notebook: the resources it reads and
writes, the outermost external call of each of its statements (empty for
pure data plumbing), and the external calls nested inside argument
expressions. -/
structure Step where
  name : String
  consumes : List Res
  produces : List Res
  outerCalls : List ExtCall
  innerCalls : List ExtCall
  deriving DecidableEq, Repr

/-- The authored helper `plot_CB(filename, plobs, binner)` loops over the
observers and makes one `plot_analysis` call per observer. -/
def plot_CB_calls (numObservers : Nat) : List ExtCall :=
  List.replicate numObservers ⟨Lib.cyclicBoosting, "plot_analysis"⟩

/-- Cell 1: `try: import jupyter_black; jupyter_black.load() except ImportError: ...`. -/
def jupyterBlackStep : Step :=
  ⟨"optional jupyter_black formatting", [], [], [⟨Lib.jupyterBlack, "load"⟩], []⟩

/-- `data = fetch_openml(data_id=1590)`. -/
def loadStep : Step :=
  ⟨"fetch the adult census dataset from OpenML", [], [Res.rawData],
   [⟨Lib.sklearn, "fetch_openml"⟩], []⟩

/-- `df = pd.DataFrame(data.data, columns=data.feature_names)`. -/
def buildDfStep : Step :=
  ⟨"build the dataframe from the fetched feature data", [Res.rawData],
   [Res.dataFrame], [⟨Lib.pandas, "DataFrame"⟩], []⟩

/-- `cols_categorical = [...]` and
`cols_noncat = [n for n in df.columns if n not in cols_categorical]`. -/
def splitColsStep : Step :=
  ⟨"split the columns into categorical and continuous", [Res.dataFrame],
   [Res.colSplit], [], []⟩

/-- `df[target] = data.target.eq(>50K).mul(1)`. -/
def binarizeTargetStep : Step :=
  ⟨"binarize the target and add it to the dataframe",
   [Res.rawData, Res.dataFrame], [Res.targetCol],
   [⟨Lib.pandas, "Series.mul"⟩], [⟨Lib.pandas, "Series.eq"⟩]⟩

/-- `assert set(cols_noncat + cols_categorical) - set(df.columns) == set()`. -/
def assertColsStep : Step :=
  ⟨"assert that the listed columns are all in the dataframe",
   [Res.colSplit, Res.dataFrame, Res.targetCol], [Res.checkedCols], [], []⟩

/-- Inside `prepare_data`:
`enc = OrdinalEncoder(handle_unknown=use_encoded_value, unknown_value=np.nan)`. -/
def makeEncoderStep : Step :=
  ⟨"construct the ordinal encoder", [], [Res.encoder],
   [⟨Lib.sklearn, "OrdinalEncoder"⟩], []⟩

/-- Inside `prepare_data`:
`df[cols_categorical] = enc.fit_transform(df[cols_categorical])`. -/
def encodeStep : Step :=
  ⟨"encode the categorical columns in place",
   [Res.encoder, Res.dataFrame, Res.colSplit], [Res.encodedCols],
   [⟨Lib.sklearn, "OrdinalEncoder.fit_transform"⟩], []⟩

/-- Inside `prepare_data`: `y = np.asarray(df[target])`. -/
def extractYStep : Step :=
  ⟨"extract the label vector", [Res.dataFrame, Res.targetCol], [Res.trainY],
   [⟨Lib.numpy, "asarray"⟩], []⟩

/-- Inside `prepare_data`: `X = df.drop(columns=target)`. -/
def extractXStep : Step :=
  ⟨"extract the feature matrix",
   [Res.dataFrame, Res.targetCol, Res.encodedCols], [Res.trainX],
   [⟨Lib.pandas, "DataFrame.drop"⟩], []⟩

/-- `features = cols_categorical + cols_noncat` and the
`feature_properties` dict comprehension (the flag constants are library
attributes, not calls). -/
def featPropsStep : Step :=
  ⟨"build the feature list and the feature-properties mapping",
   [Res.colSplit], [Res.featList, Res.featProps], [], []⟩

/-- Inside `cb_classifier_model`:
`plobs = [observers.PlottingObserver(iteration=-1)]`. -/
def makeObserverStep : Step :=
  ⟨"construct the plotting observer", [], [Res.observerList],
   [⟨Lib.cyclicBoosting, "observers.PlottingObserver"⟩], []⟩

/-- Inside `cb_classifier_model`:
`CB_pipeline = pipeline_CBClassifier(feature_properties=..., feature_groups=...,
observers=plobs, maximal_iterations=50, number_of_bins=10,
smoother_choice=common_smoothers.SmootherChoiceGroupBy(...))`. -/
def assemblePipelineStep : Step :=
  ⟨"assemble the estimator pipeline",
   [Res.featProps, Res.featList, Res.observerList], [Res.model],
   [⟨Lib.cyclicBoosting, "pipeline_CBClassifier"⟩],
   [⟨Lib.cyclicBoosting, "common_smoothers.SmootherChoiceGroupBy"⟩]⟩

/-- `CB_est.fit(X.copy(), y)` — the pipeline object returned by the
cyclic-boosting constructor is a scikit-learn `Pipeline`. -/
def fitStep : Step :=
  ⟨"fit the pipeline on X and y",
   [Res.model, Res.trainX, Res.trainY], [Res.fittedModel],
   [⟨Lib.sklearn, "Pipeline.fit"⟩], [⟨Lib.pandas, "DataFrame.copy"⟩]⟩

/-- `yhat = CB_est.predict_proba(X.copy())`. -/
def predictStep : Step :=
  ⟨"compute the per-class probability predictions",
   [Res.fittedModel, Res.trainX], [Res.probPredictions],
   [⟨Lib.sklearn, "Pipeline.predict_proba"⟩], [⟨Lib.pandas, "DataFrame.copy"⟩]⟩

/-- `mad = np.nanmean(np.abs(y - yhat[:, 0]))`. -/
def madStep : Step :=
  ⟨"compute the mean absolute deviation",
   [Res.trainY, Res.probPredictions], [Res.madScore],
   [⟨Lib.numpy, "nanmean"⟩], [⟨Lib.numpy, "abs"⟩]⟩

/-- `CB_est.score(X, y)` — the in-sample score. -/
def scoreStep : Step :=
  ⟨"compute the in-sample score",
   [Res.fittedModel, Res.trainX, Res.trainY], [Res.inSampleScore],
   [⟨Lib.sklearn, "Pipeline.score"⟩], []⟩

/-- `plot_CB("analysis_CB_iterlast", [CB_est[-1].observers[-1]], CB_est[-2])`
— the invocation passes a single observer, so the helper makes one
`plot_analysis` call. -/
def plotStep : Step :=
  ⟨"render the diagnostic analysis plots",
   [Res.fittedModel], [Res.analysisPlots], plot_CB_calls 1, []⟩

/-- `df[pred] = yhat[:, 0]`. -/
def predAssignStep : Step :=
  ⟨"store the class-0 prediction column in the dataframe",
   [Res.dataFrame, Res.probPredictions], [Res.predColumn], [], []⟩

/-- The histogram cell: two `Series.hist` calls on the rows split by
target value. -/
def histStep : Step :=
  ⟨"plot the class-separation histograms",
   [Res.dataFrame, Res.targetCol, Res.predColumn], [Res.histogram],
   [⟨Lib.pandas, "Series.hist"⟩, ⟨Lib.pandas, "Series.hist"⟩], []⟩

/-- The notebook's cells (statement granularity), in execution order. -/
def notebookSteps : List Step :=
  [jupyterBlackStep, loadStep, buildDfStep, splitColsStep,
   binarizeTargetStep, assertColsStep, makeEncoderStep, encodeStep,
   extractYStep, extractXStep, featPropsStep, makeObserverStep,
   assemblePipelineStep, fitStep, predictStep, madStep, scoreStep,
   plotStep, predAssignStep, histStep]

/-- A step list is well sequenced from `avail` when every step consumes
only resources produced by earlier steps (or already available). -/
def wellSequenced (avail : List Res) : List Step → Bool
  | [] => true
  | s :: rest =>
    s.consumes.all (fun r => avail.contains r) &&
      wellSequenced (avail ++ s.produces) rest

/-- The position of a step in the notebook's execution order. -/
def stepIdx (s : Step) : Nat := notebookSteps.indexOf s

/-- Every external call made by the file, outermost and nested. -/
def allExtCalls : List ExtCall :=
  List.flatten (notebookSteps.map (fun s => s.outerCalls ++ s.innerCalls))

/-- `m[:, j]`: column `j` of a row-major probability matrix.  A missing
probability (NaN) is `none`; probabilities themselves are modelled as
rationals, which is faithful for everything the claims state (which column
is read, and the shape of the formula). -/
def pycol (m : List (List (Option ℚ))) (j : Nat) : List (Option ℚ) :=
  m.map (fun row => (row[j]?).getD none)

/-- `np.abs(y - p)` elementwise; `y` is the 0/1 label vector (no NaNs) and
a NaN probability propagates to a NaN deviation. -/
def nanAbsSub (y : List ℚ) (p : List (Option ℚ)) : List (Option ℚ) :=
  List.zipWith (fun yi pi => pi.map (fun x => |yi - x|)) y p

/-- `np.nanmean`: the mean of the non-NaN entries. -/
def nanmean (l : List (Option ℚ)) : ℚ :=
  (l.filterMap id).sum / ((l.filterMap id).length : ℚ)

/-- The cell `mad = np.nanmean(np.abs(y - yhat[:, 0]))`, with `yhat` the
`predict_proba` output (one row of per-class probabilities per sample,
kept abstract) and `y` the 0/1 label vector. -/
def mad (y : List ℚ) (yhat : List (List (Option ℚ))) : ℚ :=
  nanmean (nanAbsSub y (pycol yhat 0))

/-- The cell `df[pred] = yhat[:, 0]`: the values written to the
dataframe's pred column. -/
def predColumnAssigned (yhat : List (List (Option ℚ))) : List (Option ℚ) :=
  pycol yhat 0

/-- Whether a call is the data-fetching utility. -/
def isDataFetchCall (c : ExtCall) : Bool := c.fn == "fetch_openml"

theorem mem_cols_noncat {featureNames : List String} {c : String} :
    c ∈ cols_noncat featureNames ↔ c ∈ featureNames ∧ c ∉ cols_categorical := by
  simp [cols_noncat, List.mem_filter]

theorem lookupLast_append {β : Type} (a b : List (String × β)) (k : String) :
    lookupLast (a ++ b) k =
      match lookupLast b k with
      | some v => some v
      | none => lookupLast a k := by
  induction a with
  | nil =>
    show lookupLast b k = _
    cases lookupLast b k <;> rfl
  | cons p ps ih =>
    have hstep : lookupLast ((p :: ps) ++ b) k =
        match lookupLast (ps ++ b) k with
        | some v => some v
        | none => if p.1 = k then some p.2 else none := rfl
    rw [hstep, ih]
    cases lookupLast b k <;> rfl

theorem lookupLast_map_const {β : Type} (l : List String) (v : β) (k : String) :
    lookupLast (l.map (fun c => (c, v))) k = if k ∈ l then some v else none := by
  induction l with
  | nil => simp [lookupLast]
  | cons c cs ih =>
    simp only [List.map_cons, lookupLast, ih]
    by_cases hcs : k ∈ cs
    · simp [hcs]
    · by_cases hck : c = k
      · subst hck
        simp [hcs]
      · have : ¬ k ∈ c :: cs := by
          simp [List.mem_cons, hcs]
          intro h
          exact hck h.symm
        simp [hcs, hck, this]

theorem lookupLast_feature_properties (featureNames : List String) (k : String) :
    lookupLast (feature_properties featureNames) k =
      if k ∈ cols_noncat featureNames then
        some (flags.IS_CONTINUOUS ||| flags.HAS_MISSING ||| flags.MISSING_NOT_LEARNED)
      else if k ∈ cols_categorical then
        some (flags.IS_UNORDERED ||| flags.HAS_MISSING ||| flags.MISSING_NOT_LEARNED)
      else none := by
  rw [feature_properties, lookupLast_append, lookupLast_map_const, lookupLast_map_const]
  by_cases hnc : k ∈ cols_noncat featureNames <;> simp [hnc]

/-- Claim C1: the feature-properties mapping is exactly the map whose keys
are the union of `cols_categorical` and `cols_noncat` (the `features` list),
sending every categorical column to
`IS_UNORDERED ||| HAS_MISSING ||| MISSING_NOT_LEARNED` and every
non-categorical column to
`IS_CONTINUOUS ||| HAS_MISSING ||| MISSING_NOT_LEARNED`. -/
theorem feature_properties_spec (featureNames : List String) (c : String) :
    (lookupLast (feature_properties featureNames) c ≠ none ↔ c ∈ features featureNames) ∧
    (c ∈ cols_categorical →
      lookupLast (feature_properties featureNames) c =
        some (flags.IS_UNORDERED ||| flags.HAS_MISSING ||| flags.MISSING_NOT_LEARNED)) ∧
    (c ∈ cols_noncat featureNames →
      lookupLast (feature_properties featureNames) c =
        some (flags.IS_CONTINUOUS ||| flags.HAS_MISSING ||| flags.MISSING_NOT_LEARNED)) := by
  refine ⟨?_, ?_, ?_⟩
  · rw [lookupLast_feature_properties]
    by_cases hnc : c ∈ cols_noncat featureNames
    · simp [hnc, features]
    · by_cases hc : c ∈ cols_categorical <;> simp [hnc, hc, features]
  · intro hc
    have hnc : c ∉ cols_noncat featureNames := by
      intro h
      exact (mem_cols_noncat.mp h).2 hc
    rw [lookupLast_feature_properties]
    simp [hnc, hc]
  · intro hnc
    rw [lookupLast_feature_properties]
    simp [hnc]

/-- Claim C1 witness: concrete evaluation of `feature_properties` on a
two-column dataset, one categorical and one continuous. -/
theorem feature_properties_spec_witness :
    lookupLast (feature_properties ["age", "workclass"]) "workclass" =
      some (flags.IS_UNORDERED ||| flags.HAS_MISSING ||| flags.MISSING_NOT_LEARNED) ∧
    lookupLast (feature_properties ["age", "workclass"]) "age" =
      some (flags.IS_CONTINUOUS ||| flags.HAS_MISSING ||| flags.MISSING_NOT_LEARNED) :=
  ⟨(feature_properties_spec ["age", "workclass"] "workclass").2.1 (by decide),
   (feature_properties_spec ["age", "workclass"] "age").2.2 (by decide)⟩

theorem colGet_append (a b : DF) (c : String) :
    colGet (a ++ b) c =
      match colGet a c with
      | some v => some v
      | none => colGet b c := by
  induction a with
  | nil => rfl
  | cons p ps ih =>
    by_cases hpc : p.1 = c <;> simp [colGet, hpc, ih]

theorem colGet_replace (df : DF) (c : String) (vals : List Val)
    (h : (colGet df c).isSome) :
    colGet (df.map (fun p => if p.1 = c then (c, vals) else p)) c = some vals := by
  induction df with
  | nil => simp [colGet] at h
  | cons p ps ih =>
    by_cases hpc : p.1 = c
    · simp [colGet, hpc]
    · have h' : (colGet ps c).isSome := by simpa [colGet, hpc] using h
      simp [colGet, hpc, ih h']

theorem colGet_setCol_self (df : DF) (c : String) (vals : List Val) :
    colGet (setCol df c vals) c = some vals := by
  by_cases h : (colGet df c).isSome
  · simp [setCol, h, colGet_replace df c vals h]
  · have hnone : colGet df c = none := by
      cases hc : colGet df c
      · rfl
      · rw [hc] at h; simp at h
    simp [setCol, h, colGet_append, hnone, colGet]

theorem colGet_encodeCategoricals (df : DF) (c : String) :
    colGet (encodeCategoricals df) c =
      (colGet df c).map
        (fun vals => if c ∈ cols_categorical then ordinalEncodeCol vals else vals) := by
  induction df with
  | nil => rfl
  | cons p ps ih =>
    rcases p with ⟨name, vals⟩
    by_cases hpc : name = c
    · subst hpc
      by_cases hp : name ∈ cols_categorical <;> simp [encodeCategoricals, colGet, hp]
    · by_cases hp : name ∈ cols_categorical <;>
        simpa [encodeCategoricals, colGet, hp, hpc] using ih

theorem colGet_filter_ne (df : DF) (c : String) :
    colGet (df.filter (fun p => decide (p.1 ≠ "target"))) c =
      if c = "target" then none else colGet df c := by
  induction df with
  | nil => simp [colGet]
  | cons p ps ih =>
    by_cases hpt : p.1 = "target"
    · have hgoal : colGet (List.filter (fun p => decide (p.1 ≠ "target")) (p :: ps)) c =
          colGet (List.filter (fun p => decide (p.1 ≠ "target")) ps) c := by
        simp [List.filter_cons, hpt]
      rw [hgoal, ih]
      by_cases hct : c = "target"
      · simp [hct]
      · have hne : ¬ p.1 = c := by rw [hpt]; intro h; exact hct h.symm
        simp [hct, colGet, hne]
    · have hgoal : colGet (List.filter (fun p => decide (p.1 ≠ "target")) (p :: ps)) c =
          if p.1 = c then some p.2
          else colGet (List.filter (fun p => decide (p.1 ≠ "target")) ps) c := by
        simp [List.filter_cons, hpt, colGet]
      rw [hgoal]
      by_cases hpc : p.1 = c
      · have hct : ¬ c = "target" := by rw [← hpc]; exact hpt
        simp [hpc, hct, colGet]
      · rw [if_neg hpc, ih]
        by_cases hct : c = "target" <;> simp [hct, colGet, hpc]

theorem filter_names (df : DF) :
    (df.filter (fun p => decide (p.1 ≠ "target"))).map Prod.fst =
      (df.map Prod.fst).filter (fun n => decide (n ≠ "target")) := by
  induction df with
  | nil => rfl
  | cons p ps ih =>
    by_cases hpt : p.1 = "target" <;>
      · simp [List.filter_cons, hpt] at ih ⊢
        exact ih

/-- Claim C8: `prepare_data` mutates its caller's dataframe — afterwards
every categorical column present in `df` is replaced by its ordinal
encoding, every other column (the `"target"` column included) is unchanged
— while the returned `X` is the mutated dataframe without the `"target"`
column (same column order, same value lists, hence same row order) and the
returned `y` is exactly the target column, with one entry per row.
`(prepare_data df).2.2` is the caller's dataframe after the call. -/
theorem prepare_data_spec (df : DF) :
    (∀ c vals, c ∈ cols_categorical → colGet df c = some vals →
        colGet (prepare_data df).2.2 c = some (ordinalEncodeCol vals)) ∧
    (∀ c vals, c ∉ cols_categorical → colGet df c = some vals →
        colGet (prepare_data df).2.2 c = some vals) ∧
    (∀ tvals, colGet df "target" = some tvals →
        colGet (prepare_data df).2.2 "target" = some tvals ∧
        (prepare_data df).2.1 = tvals ∧
        (prepare_data df).2.1.length = tvals.length) ∧
    ((prepare_data df).1.map Prod.fst =
        ((prepare_data df).2.2.map Prod.fst).filter (fun n => decide (n ≠ "target"))) ∧
    (∀ c, c ≠ "target" → colGet (prepare_data df).1 c = colGet (prepare_data df).2.2 c) ∧
    colGet (prepare_data df).1 "target" = none := by
  have htc : "target" ∉ cols_categorical := by decide
  refine ⟨?_, ?_, ?_, ?_, ?_, ?_⟩
  · intro c vals hc hv
    simp [prepare_data, colGet_encodeCategoricals, hv, hc]
  · intro c vals hc hv
    simp [prepare_data, colGet_encodeCategoricals, hv, hc]
  · intro tvals hv
    have h2 : colGet (encodeCategoricals df) "target" = some tvals := by
      simp [colGet_encodeCategoricals, hv, htc]
    refine ⟨by simpa [prepare_data] using h2, by simp [prepare_data, h2], by simp [prepare_data, h2]⟩
  · simpa [prepare_data] using filter_names (encodeCategoricals df)
  · intro c hc
    have h := colGet_filter_ne (encodeCategoricals df) c
    rw [if_neg hc] at h
    simpa [prepare_data] using h
  · have h := colGet_filter_ne (encodeCategoricals df) "target"
    rw [if_pos rfl] at h
    simpa [prepare_data] using h

/-- Claim C8 witness: `prepare_data` on a concrete two-column dataframe. -/
theorem prepare_data_spec_witness :
    colGet (prepare_data
        [("workclass", [Val.str "b", Val.str "a"]),
         ("target", [Val.num 1, Val.num 0])]).2.2 "workclass" =
      some (ordinalEncodeCol [Val.str "b", Val.str "a"]) ∧
    colGet (prepare_data
        [("workclass", [Val.str "b", Val.str "a"]),
         ("target", [Val.num 1, Val.num 0])]).2.2 "target" =
      some [Val.num 1, Val.num 0] ∧
    (prepare_data
        [("workclass", [Val.str "b", Val.str "a"]),
         ("target", [Val.num 1, Val.num 0])]).2.1 = [Val.num 1, Val.num 0] :=
  ⟨(prepare_data_spec
      [("workclass", [Val.str "b", Val.str "a"]),
       ("target", [Val.num 1, Val.num 0])]).1
      "workclass" [Val.str "b", Val.str "a"] (by decide) (by decide),
   ((prepare_data_spec
      [("workclass", [Val.str "b", Val.str "a"]),
       ("target", [Val.num 1, Val.num 0])]).2.2.1
      [Val.num 1, Val.num 0] (by decide)).1,
   ((prepare_data_spec
      [("workclass", [Val.str "b", Val.str "a"]),
       ("target", [Val.num 1, Val.num 0])]).2.2.1
      [Val.num 1, Val.num 0] (by decide)).2.1⟩

/-- Claim C2: the value written to `df["target"]` is 1 exactly where the
raw target value equals `">50K"` and 0 otherwise; the `y` returned by
`prepare_data` is exactly that column, so every label is 0 or 1. -/
theorem target_binarization_spec (df : DF) (raw : List String) :
    (prepare_data (addTargetColumn df raw)).2.1 = binarizeTarget raw ∧
    (∀ i : Nat, (binarizeTarget raw)[i]? = some (Val.num 1) ↔
        raw[i]? = some ">50K") ∧
    (∀ v, v ∈ binarizeTarget raw → v = Val.num 0 ∨ v = Val.num 1) := by
  have htc : "target" ∉ cols_categorical := by decide
  refine ⟨?_, ?_, ?_⟩
  · have h1 : colGet (addTargetColumn df raw) "target" = some (binarizeTarget raw) :=
      colGet_setCol_self df "target" (binarizeTarget raw)
    have h2 : colGet (encodeCategoricals (addTargetColumn df raw)) "target" =
        some (binarizeTarget raw) := by
      simp [colGet_encodeCategoricals, h1, htc]
    simp [prepare_data, h2]
  · intro i
    cases hr : raw[i]? with
    | none => simp [binarizeTarget, List.getElem?_map, hr]
    | some a =>
      by_cases ha : a = ">50K" <;> simp [binarizeTarget, List.getElem?_map, hr, ha]
  · intro v hv
    simp only [binarizeTarget, List.mem_map] at hv
    obtain ⟨a, _, rfl⟩ := hv
    by_cases ha : a = ">50K" <;> simp [ha]

/-- Claim C2 witness: the target binarization on a concrete dataframe and
raw target column. -/
theorem target_binarization_spec_witness :
    (prepare_data (addTargetColumn [("age", [Val.num 39, Val.num 50])]
        [">50K", "<=50K"])).2.1 = binarizeTarget [">50K", "<=50K"] ∧
    ((binarizeTarget [">50K", "<=50K"])[0]? = some (Val.num 1) ↔
        ([">50K", "<=50K"] : List String)[0]? = some ">50K") ∧
    (Val.num 1 = Val.num 0 ∨ Val.num 1 = Val.num 1) :=
  ⟨(target_binarization_spec [("age", [Val.num 39, Val.num 50])] [">50K", "<=50K"]).1,
   (target_binarization_spec [("age", [Val.num 39, Val.num 50])] [">50K", "<=50K"]).2.1 0,
   (target_binarization_spec [("age", [Val.num 39, Val.num 50])] [">50K", "<=50K"]).2.2
     (Val.num 1) (by decide)⟩

theorem mem_missingCols {featureNames : List String} {c : String} :
    c ∈ missingCols featureNames ↔
      (c ∈ cols_noncat featureNames ∨ c ∈ cols_categorical) ∧
      c ∉ dfColsWithTarget featureNames := by
  simp only [missingCols, List.mem_filter, List.mem_append, decide_eq_true_eq]

theorem missingCols_subset_cat {featureNames : List String} {c : String}
    (h : c ∈ missingCols featureNames) : c ∈ cols_categorical := by
  rcases mem_missingCols.mp h with ⟨hor, hnot⟩
  rcases hor with hnc | hc
  · have hin : c ∈ dfColsWithTarget featureNames := by
      have hf := (mem_cols_noncat.mp hnc).1
      simp [dfColsWithTarget, hf]
    exact absurd hin hnot
  · exact hc

theorem cat_ne_target : ∀ c ∈ cols_categorical, c ≠ "target" := by decide

theorem missingCols_eq_nil_iff {featureNames : List String} :
    missingCols featureNames = [] ↔
      ¬ ∃ c ∈ cols_categorical, c ∉ featureNames := by
  constructor
  · intro h hex
    rcases hex with ⟨c, hc, hnf⟩
    have hm : c ∈ missingCols featureNames := by
      refine mem_missingCols.mpr ⟨Or.inr hc, ?_⟩
      intro hin
      have hsplit : c ∈ featureNames ∨ c = "target" := by
        simpa [dfColsWithTarget] using hin
      rcases hsplit with h1 | h2
      · exact hnf h1
      · exact (cat_ne_target c hc) h2
    rw [h] at hm
    exact absurd hm (List.not_mem_nil c)
  · intro h
    by_contra hne
    rcases List.exists_mem_of_ne_nil _ hne with ⟨c, hc⟩
    have hcat := missingCols_subset_cat hc
    have hnot := (mem_missingCols.mp hc).2
    refine h ⟨c, hcat, ?_⟩
    intro hf
    exact hnot (by simp [dfColsWithTarget, hf])

theorem columnsAssert_ok_iff {featureNames : List String} :
    columnsAssert featureNames = Except.ok () ↔
      missingCols featureNames = [] := by
  rw [columnsAssert]
  by_cases h : missingCols featureNames = [] <;> simp [h]

theorem columnsAssert_error_iff {featureNames : List String} :
    columnsAssert featureNames = Except.error "Columns not in data set" ↔
      ∃ c ∈ cols_categorical, c ∉ featureNames := by
  rw [columnsAssert]
  by_cases h : missingCols featureNames = []
  · simp [h, missingCols_eq_nil_iff.mp h]
  · have hex : ∃ c ∈ cols_categorical, c ∉ featureNames :=
      not_not.mp (mt missingCols_eq_nil_iff.mpr h)
    simp [h, hex]

/-- Claim C3 counterexample: it is false that every surfaced failure is
library-raised — on the concrete feature-column list `["age"]` (a dataset
missing the hard-coded categorical columns), the failure that surfaces is
the AssertionError authored in this file. -/
theorem no_error_handling_counterexample :
    ¬ (∀ (featureNames : List String) (e : ErrSource × String),
        columnsAssertTagged featureNames = Except.error e →
        e.1 = ErrSource.library) := by
  intro h
  have h1 : columnsAssertTagged ["age"] =
      Except.error (ErrSource.authored, "Columns not in data set") := rfl
  have h2 := h ["age"] (ErrSource.authored, "Columns not in data set") h1
  exact ErrSource.noConfusion h2

/-- Claim C3 (amended): the only error handling authored in this file is
the column-coverage assertion — whose failure is the authored
AssertionError "Columns not in data set", raised exactly when a listed
column is absent from the dataframe — and the try/except around the
optional jupyter-black import, which swallows the library ImportError;
every other failure surfaces as whatever the external library raises,
uncaught. -/
theorem authored_error_handling_spec :
    (∀ (featureNames : List String) (e : ErrSource × String),
        columnsAssertTagged featureNames = Except.error e →
        e = (ErrSource.authored, "Columns not in data set") ∧
        ∃ c ∈ cols_categorical, c ∉ dfColsWithTarget featureNames) ∧
    (∀ b, importJupyterBlackCell b = Except.ok ()) ∧
    importJupyterBlackRaw true =
      Except.error (ErrSource.library, "ImportError") := by
  refine ⟨?_, ?_, rfl⟩
  · intro fn e he
    cases hassert : columnsAssert fn with
    | ok u =>
      simp only [columnsAssertTagged, hassert] at he
      exact Except.noConfusion he
    | error m =>
      have hm : m = "Columns not in data set" := by
        rw [columnsAssert] at hassert
        by_cases h : missingCols fn = []
        · rw [if_pos h] at hassert
          exact Except.noConfusion hassert
        · rw [if_neg h] at hassert
          injection hassert with h'
          exact h'.symm
      have hne : missingCols fn ≠ [] := by
        intro h0
        rw [columnsAssert, if_pos h0] at hassert
        exact Except.noConfusion hassert
      simp only [columnsAssertTagged, hassert] at he
      injection he with h3
      subst hm
      refine ⟨h3.symm, ?_⟩
      rcases List.exists_mem_of_ne_nil _ hne with ⟨c, hcm⟩
      exact ⟨c, missingCols_subset_cat hcm, (mem_missingCols.mp hcm).2⟩
  · intro b
    cases b <;> rfl

/-- Claim C3 (amended) witness: on the concrete feature-column list
`["age"]` the assertion's surfaced error is the authored one and a
categorical column is missing; the jupyter-black cell succeeds even when
the import fails. -/
theorem authored_error_handling_spec_witness :
    ((ErrSource.authored, "Columns not in data set") =
        ((ErrSource.authored, "Columns not in data set") : ErrSource × String) ∧
      ∃ c ∈ cols_categorical, c ∉ dfColsWithTarget ["age"]) ∧
    importJupyterBlackCell true = Except.ok () :=
  ⟨authored_error_handling_spec.1 ["age"]
      (ErrSource.authored, "Columns not in data set") rfl,
   authored_error_handling_spec.2.1 true⟩

/-- Claim C7 counterexample: it is false that no operation authored in the
file constrains the dataset — the authored column-coverage assertion
rejects the concrete dataset whose only column is `"age"`. -/
theorem no_authored_invariant_counterexample :
    ¬ (∀ featureNames : List String,
        columnsAssert featureNames = Except.ok ()) := by
  intro h
  have h1 := h ["age"]
  have h2 : columnsAssert ["age"] = Except.error "Columns not in data set" := rfl
  rw [h2] at h1
  exact Except.noConfusion h1

/-- Claim C7 (amended): the repository defines none of its data entities
and, with one exception, imposes no invariant on them beyond what the
external library enforces; the exception is the authored column-coverage
assertion, which constrains the dataset to contain every hard-coded
categorical column: it accepts the dataframe exactly when every name in
`cols_categorical` occurs among the fetched feature columns. -/
theorem authored_invariant_spec (featureNames : List String) :
    columnsAssert featureNames = Except.ok () ↔
      ∀ c ∈ cols_categorical, c ∈ featureNames := by
  rw [columnsAssert_ok_iff, missingCols_eq_nil_iff]
  constructor
  · intro h c hc
    by_contra hn
    exact h ⟨c, hc, hn⟩
  · intro h hex
    rcases hex with ⟨c, hc, hn⟩
    exact hn (h c hc)

/-- Claim C7 (amended) witness: the assertion accepts a concrete dataset
containing all hard-coded categorical columns. -/
theorem authored_invariant_spec_witness :
    columnsAssert ["age", "workclass", "education", "marital-status",
      "occupation", "relationship", "race", "sex", "native-country"] =
      Except.ok () :=
  (authored_invariant_spec ["age", "workclass", "education", "marital-status",
      "occupation", "relationship", "race", "sex", "native-country"]).mpr
    (by decide)

/-- Claim C10: the set difference checked by the assertion only ever
contains hard-coded categorical names; the assert raises
`AssertionError("Columns not in data set")` if and only if some listed
categorical column is absent from the fetched dataset, and otherwise the
cell returns successfully. -/
theorem columns_assert_spec (featureNames : List String) :
    (∀ c ∈ missingCols featureNames, c ∈ cols_categorical) ∧
    (columnsAssert featureNames = Except.error "Columns not in data set" ↔
      ∃ c ∈ cols_categorical, c ∉ featureNames) ∧
    ((¬ ∃ c ∈ cols_categorical, c ∉ featureNames) →
      columnsAssert featureNames = Except.ok ()) :=
  ⟨fun _ hc => missingCols_subset_cat hc,
   columnsAssert_error_iff,
   fun h => columnsAssert_ok_iff.mpr (missingCols_eq_nil_iff.mpr h)⟩

/-- Claim C10 witness: the assertion fails on a dataset missing
`"workclass"` and passes on one containing all listed columns. -/
theorem columns_assert_spec_witness :
    columnsAssert ["age"] = Except.error "Columns not in data set" ∧
    columnsAssert ["age", "workclass", "education", "marital-status",
      "occupation", "relationship", "race", "sex", "native-country"] =
      Except.ok () :=
  ⟨(columns_assert_spec ["age"]).2.1.mpr ⟨"workclass", by decide, by decide⟩,
   (columns_assert_spec ["age", "workclass", "education", "marital-status",
      "occupation", "relationship", "race", "sex", "native-country"]).2.2
     (by decide)⟩

/-- Claim C4: the notebook is a linear sequence executed in the order
load → preprocessing (binarize the target, encode the categoricals) →
pipeline construction → fit → predictions and score → diagnostic plots,
and no step's result is consumed before the step that produces it has
run. -/
theorem notebook_sequence_spec :
    wellSequenced [] notebookSteps = true ∧
    stepIdx loadStep < stepIdx binarizeTargetStep ∧
    stepIdx loadStep < stepIdx encodeStep ∧
    stepIdx binarizeTargetStep < stepIdx assemblePipelineStep ∧
    stepIdx encodeStep < stepIdx assemblePipelineStep ∧
    stepIdx assemblePipelineStep < stepIdx fitStep ∧
    stepIdx fitStep < stepIdx predictStep ∧
    stepIdx fitStep < stepIdx scoreStep ∧
    stepIdx predictStep < stepIdx plotStep ∧
    stepIdx scoreStep < stepIdx plotStep := by
  decide

/-- Claim C5: the encoding statement, the pipeline assembly, and the fit,
predict and score statements each make exactly one outermost call into an
external library's public API, and the authored plotting helper makes one
`plot_analysis` call per observer — exactly one for the notebook's
single-observer invocation. -/
theorem single_call_steps_spec :
    encodeStep.outerCalls = [⟨Lib.sklearn, "OrdinalEncoder.fit_transform"⟩] ∧
    assemblePipelineStep.outerCalls =
      [⟨Lib.cyclicBoosting, "pipeline_CBClassifier"⟩] ∧
    fitStep.outerCalls.length = 1 ∧
    predictStep.outerCalls.length = 1 ∧
    scoreStep.outerCalls.length = 1 ∧
    (∀ numObservers : Nat,
      (plot_CB_calls numObservers).length = numObservers) ∧
    plotStep.outerCalls = plot_CB_calls 1 := by
  refine ⟨rfl, rfl, rfl, rfl, rfl, ?_, rfl⟩
  intro numObservers
  simp [plot_CB_calls]

/-- Claim C6 counterexample: not every external call belongs to the
cyclic-boosting API or the data-fetching utility — the sklearn
`OrdinalEncoder.fit_transform` call in `prepare_data` belongs to
neither. -/
theorem external_interface_counterexample :
    (⟨Lib.sklearn, "OrdinalEncoder.fit_transform"⟩ : ExtCall) ∈ allExtCalls ∧
    ¬ ((⟨Lib.sklearn, "OrdinalEncoder.fit_transform"⟩ : ExtCall).lib =
          Lib.cyclicBoosting ∨
        isDataFetchCall ⟨Lib.sklearn, "OrdinalEncoder.fit_transform"⟩ = true) := by
  decide

/-- Claim C6 (amended): every external call the file makes belongs to the
cyclic-boosting library's public API, the data-fetching utility
(`fetch_openml`), or the general-purpose libraries scikit-learn, pandas
and numpy (plus the optional jupyter-black formatter); the cyclic-boosting
calls are exactly the public-API members the spec names (pipeline
constructor, observer, smoother-choice class, plotting function). -/
theorem external_interface_spec :
    ∀ c ∈ allExtCalls,
      (c.lib = Lib.cyclicBoosting ∨ isDataFetchCall c = true ∨
        c.lib = Lib.sklearn ∨ c.lib = Lib.pandas ∨ c.lib = Lib.numpy ∨
        c.lib = Lib.jupyterBlack) ∧
      (c.lib = Lib.cyclicBoosting →
        c.fn ∈ ["pipeline_CBClassifier", "observers.PlottingObserver",
                "common_smoothers.SmootherChoiceGroupBy", "plot_analysis"]) := by
  decide

/-- Claim C6 (amended) witness: the classification applied to the concrete
pipeline-constructor call. -/
theorem external_interface_spec_witness :
    ((⟨Lib.cyclicBoosting, "pipeline_CBClassifier"⟩ : ExtCall).lib =
        Lib.cyclicBoosting ∨
      isDataFetchCall ⟨Lib.cyclicBoosting, "pipeline_CBClassifier"⟩ = true ∨
      (⟨Lib.cyclicBoosting, "pipeline_CBClassifier"⟩ : ExtCall).lib =
        Lib.sklearn ∨
      (⟨Lib.cyclicBoosting, "pipeline_CBClassifier"⟩ : ExtCall).lib =
        Lib.pandas ∨
      (⟨Lib.cyclicBoosting, "pipeline_CBClassifier"⟩ : ExtCall).lib =
        Lib.numpy ∨
      (⟨Lib.cyclicBoosting, "pipeline_CBClassifier"⟩ : ExtCall).lib =
        Lib.jupyterBlack) ∧
    ((⟨Lib.cyclicBoosting, "pipeline_CBClassifier"⟩ : ExtCall).lib =
        Lib.cyclicBoosting →
      (⟨Lib.cyclicBoosting, "pipeline_CBClassifier"⟩ : ExtCall).fn ∈
        ["pipeline_CBClassifier", "observers.PlottingObserver",
         "common_smoothers.SmootherChoiceGroupBy", "plot_analysis"]) :=
  external_interface_spec ⟨Lib.cyclicBoosting, "pipeline_CBClassifier"⟩
    (by decide)

/-- Claim C9: the reported mean absolute deviation is computed against the
predicted probability of class 0, not of the positive class — `mad` is
the nan-mean over all rows of `|y - yhat[:, 0]|` — the choice of column
is observable (on a concrete probability matrix the class-0 and class-1
deviations differ), and `df[pred]` receives exactly the class-0 column
`yhat[:, 0]`. -/
theorem mad_class0_spec :
    (∀ (y : List ℚ) (yhat : List (List (Option ℚ))),
      mad y yhat =
        nanmean (List.zipWith (fun yi pi => pi.map (fun x => |yi - x|)) y
          (yhat.map (fun row => (row[0]?).getD none)))) ∧
    mad [1] [[some 0, some 1]] = 1 ∧
    nanmean (nanAbsSub [1] (pycol [[some 0, some 1]] 1)) = 0 ∧
    (∀ yhat : List (List (Option ℚ)),
      predColumnAssigned yhat = yhat.map (fun row => (row[0]?).getD none)) := by
  refine ⟨fun y yhat => rfl, ?_, ?_, fun yhat => rfl⟩
  · norm_num [mad, nanmean, nanAbsSub, pycol, List.filterMap_cons, List.filterMap_nil]
  · norm_num [nanmean, nanAbsSub, pycol, List.filterMap_cons, List.filterMap_nil]

end ClassificationAdult
